import Mathlib

/-!
Shallow embedding of the SecureView single-page client (two variants:
`src/src/App.jsx`, the shop/cart variant, and `src/unnamed/part_000`, the
camera-dashboard variant). Pure computations (cart arithmetic, cart
mutations) become Lean functions over exact rationals; the effectful
handlers (checkout, login, logout, panel loads, admin mutations) become
functions from their inputs and the backend responses to an explicit
record of the requests issued, the storage written and the state set, in
program order. JavaScript numbers are modelled as `ℚ` (for prices) and
`ℤ` (for quantities); `localStorage` is modelled as optional string-valued
keys; `JSON.stringify`/`JSON.parse` of the user object are modelled by an
executable serializer and parser over character lists.
-/

/-! ## Cart data model (variant 2, `src/src/App.jsx`)

A cart line as written by `Shop.addToCart`:
`{ product_id, name, price, qty, image }`. -/

structure CartItem where
  product_id : String
  name : String
  price : ℚ
  qty : ℤ
  image : Option String
deriving DecidableEq, Repr

/-- A product as seen by `Shop.addToCart` (`p._id`, `p.name`, `p.price`,
`p.images?.[0]`). -/
structure Product where
  id : String
  name : String
  price : ℚ
  image : Option String
deriving DecidableEq, Repr

/-! ## Cart arithmetic (`Cart`, App.jsx lines 239-241)

`subtotal = items.reduce((s,i)=> s + i.price * i.qty, 0)`,
`tax = +(subtotal * 0.07).toFixed(2)`,
`total = +(subtotal + tax).toFixed(2)`.
`toFixed(2)` (rounding to 2 decimal places, halves up) is modelled on
exact rationals as `⌊x·100 + 1/2⌋ / 100`. -/

def round2 (x : ℚ) : ℚ := (⌊x * 100 + 1/2⌋ : ℚ) / 100

def cartSubtotal (items : List CartItem) : ℚ :=
  items.foldl (fun s i => s + i.price * (i.qty : ℚ)) 0

def cartTax (items : List CartItem) : ℚ :=
  round2 (cartSubtotal items * (7/100))

def cartTotal (items : List CartItem) : ℚ :=
  round2 (cartSubtotal items + cartTax items)

/-! ## Cart mutations

`Cart.updateQty` maps over the lines, clamping the touched line's
quantity at 1 (`Math.max(1, i.qty + delta)`); `Cart.removeItem` filters
the line out; `Shop.addToCart` increments the first line with the
product's id, or appends a fresh line with qty 1 (the source finds the
index with `findIndex` and mutates it, else pushes). -/

def updateQtyItem (pid : String) (delta : ℤ) (i : CartItem) : CartItem :=
  if i.product_id = pid then { i with qty := max 1 (i.qty + delta) } else i

def updateQty (items : List CartItem) (pid : String) (delta : ℤ) : List CartItem :=
  items.map (updateQtyItem pid delta)

def removeItem (items : List CartItem) (pid : String) : List CartItem :=
  items.filter (fun i => i.product_id ≠ pid)

def addToCart : List CartItem → Product → List CartItem
  | [], p => [⟨p.id, p.name, p.price, 1, p.image⟩]
  | i :: rest, p =>
    if i.product_id = p.id then { i with qty := i.qty + 1 } :: rest
    else i :: addToCart rest p

/-! ## Checkout (`Cart.placeOrder`, App.jsx lines 243-253)

The handler returns immediately on an empty cart; otherwise it POSTs the
order, aborts with "Order failed" on a non-ok response, then POSTs the
payment, aborts with "Payment failed" on a non-ok response, and only then
removes the persisted `cart` key and empties the in-memory list. The
outcome records the requests in the order they are issued, the persisted
cart after the call (`none` = key removed), the in-memory items after the
call, and the user-visible message. -/

structure CheckoutOutcome where
  requests : List String
  storedCart : Option (List CartItem)
  items : List CartItem
  message : Option String
deriving DecidableEq, Repr

def placeOrder (items : List CartItem) (storedCart : Option (List CartItem))
    (orderOk : Bool) (payOk : Bool) : CheckoutOutcome :=
  if items.length = 0 then
    ⟨[], storedCart, items, none⟩
  else if orderOk = false then
    ⟨["POST /orders"], storedCart, items, some "Order failed"⟩
  else if payOk = false then
    ⟨["POST /orders", "POST /payments/checkout"], storedCart, items,
      some "Payment failed"⟩
  else
    ⟨["POST /orders", "POST /payments/checkout"], none, [],
      some "Order placed and paid successfully!"⟩

/-! ## Session data model (`useAuth`, both variants, lines 5-46)

`localStorage` holds optional string values under the keys `token` and
`user`; the in-memory reactive state is the token string and the parsed
user. The server's user object carries `id`, `name`, `email`, `role`
(spec §3, Session). -/

structure User where
  id : String
  name : String
  email : String
  role : String
deriving DecidableEq, Repr

structure Storage where
  token : Option String
  user : Option String
deriving DecidableEq, Repr

structure AuthState where
  token : String
  user : Option User
deriving DecidableEq, Repr

/-! ### `JSON.stringify` / `JSON.parse` of the user object

`login` stores `JSON.stringify(data.user)` and startup reads it back with
`JSON.parse`. The serializer emits the object with its four fields in
order, escaping `"` and `\` inside string values; the parser inverts
exactly this format. -/

def escapeChar (c : Char) : List Char :=
  if c = '"' ∨ c = '\\' then ['\\', c] else [c]

def escapeL (cs : List Char) : List Char := (cs.map escapeChar).flatten

/-- Read an escaped JSON string body up to its closing quote; the flag
records whether the previous character was an unconsumed backslash.
Returns the unescaped content and the remaining input. -/
def readStrAux : Bool → List Char → Option (List Char × List Char)
  | _, [] => none
  | true, c :: rest => (readStrAux false rest).map (fun p => (c :: p.1, p.2))
  | false, c :: rest =>
    if c = '\\' then readStrAux true rest
    else if c = '"' then some ([], rest)
    else (readStrAux false rest).map (fun p => (c :: p.1, p.2))

def readStr (cs : List Char) : Option (List Char × List Char) :=
  readStrAux false cs

/-- Strip an exact literal from the front of the input. -/
def dropLit : List Char → List Char → Option (List Char)
  | [], cs => some cs
  | _ :: _, [] => none
  | l :: ls, c :: cs => if c = l then dropLit ls cs else none

def keyId : List Char := "\x7b\"id\":\"".data
def keyName : List Char := ",\"name\":\"".data
def keyEmail : List Char := ",\"email\":\"".data
def keyRole : List Char := ",\"role\":\"".data
def closeBrace : List Char := "\x7d".data

def stringifyUserL (u : User) : List Char :=
  keyId ++ escapeL u.id.data ++ '"' ::
  (keyName ++ escapeL u.name.data ++ '"' ::
  (keyEmail ++ escapeL u.email.data ++ '"' ::
  (keyRole ++ escapeL u.role.data ++ '"' :: closeBrace)))

def parseUserL (cs : List Char) : Option User := do
  let cs ← dropLit keyId cs
  let (idL, cs) ← readStr cs
  let cs ← dropLit keyName cs
  let (nameL, cs) ← readStr cs
  let cs ← dropLit keyEmail cs
  let (emailL, cs) ← readStr cs
  let cs ← dropLit keyRole cs
  let (roleL, cs) ← readStr cs
  let cs ← dropLit closeBrace cs
  match cs with
  | [] => some ⟨⟨idL⟩, ⟨nameL⟩, ⟨emailL⟩, ⟨roleL⟩⟩
  | _ => none

def stringifyUser (u : User) : String := ⟨stringifyUserL u⟩

def parseUser (s : String) : Option User := parseUserL s.data

/-! ### Auth operations

The initial state of `useAuth` reads `localStorage.getItem("token") || ""` and
`d ? JSON.parse(d) : null` for the user; `login` POSTs the credentials,
throws `Invalid credentials` on a non-ok response, and otherwise writes
token and serialized user to storage and sets the reactive state;
`logout` removes both keys and resets the state, with no request. -/

def initAuth (st : Storage) : AuthState :=
  { token := st.token.getD ""
    user :=
      match st.user with
      | none => none
      | some d => if d = "" then none else parseUser d }

structure LoginResp where
  ok : Bool
  token : String
  user : User
deriving DecidableEq, Repr

structure LoginOutcome where
  requests : List String
  storage : Storage
  state : AuthState
  error : Option String
deriving DecidableEq, Repr

def login (st : Storage) (mem : AuthState) (resp : LoginResp) : LoginOutcome :=
  if resp.ok = false then
    ⟨["POST /auth/login"], st, mem, some "Invalid credentials"⟩
  else
    ⟨["POST /auth/login"],
      { token := some resp.token, user := some (stringifyUser resp.user) },
      ⟨resp.token, some resp.user⟩, none⟩

def logout (_st : Storage) (_mem : AuthState) : Storage × AuthState :=
  ({ token := none, user := none }, ⟨"", none⟩)

/-- Root component `App` (both variants): `if (!token) return <AuthScreen/>` else the
dashboard; a string is falsy exactly when it is empty. -/
inductive Screen
  | authScreen
  | dashboard
deriving DecidableEq, Repr

def appScreen (mem : AuthState) : Screen :=
  if mem.token = "" then .authScreen else .dashboard

/-! ## Mutating-action effect traces (both variants)

Each mutation handler is transcribed as the list of its observable
effects in program order, taking the data it reads (prompt results, form
values, ids) as arguments. `setFormState` is a write to a form field's
state (never to a fetched list), `invokeLoad` is a call to the owning
panel's `load` routine, `alertBox` is a blocking `alert(...)`, and
`setListState` — never emitted by any handler — would be a direct patch
of a fetched list's local state. -/

inductive Effect
  | request (method : String) (path : String)
  | invokeLoad (panel : String)
  | setFormState (panel : String)
  | alertBox (msg : String)
  | setListState (panel : String)
deriving DecidableEq, Repr

/-- Handler `AddCameraCard.add` (variant 1, part_000 lines 259-265): POST the
camera, clear the three form fields, then `onAdded()` = `Dashboard.load`. -/
def addCameraTrace : List Effect :=
  [.request "POST" "/cameras", .setFormState "AddCameraCard",
    .invokeLoad "Dashboard"]

/-- Handler `Dashboard.createService` (variant 1, part_000 lines 150-155):
returns if the prompt was cancelled/empty, else POST then `load()`. -/
def createServiceTrace (address : String) : List Effect :=
  if address = "" then []
  else [.request "POST" "/services", .invokeLoad "Dashboard"]

/-- Handler `Services.book` (variant 2, App.jsx lines 302-307). -/
def bookServiceTrace (address : String) : List Effect :=
  if address = "" then []
  else [.request "POST" "/services", .invokeLoad "Services"]

/-- Handler `Account.changePlan` (variant 2, App.jsx lines 337-340). -/
def changePlanTrace (_plan : String) : List Effect :=
  [.request "POST" "/subscription", .invokeLoad "Account"]

/-- Handler `AdminPanel.sendAlert` (variant 1, part_000 lines 326-330): POST the
alert, clear the message field, pop the sent notice — no `load()`. -/
def sendAlertTrace : List Effect :=
  [.request "POST" "/admin/alerts", .setFormState "AdminPanel",
    .alertBox "Alert sent"]

/-- Handler `AdminPanel.createProduct` (variant 2, App.jsx lines 384-390):
on a non-ok response alert and return; on ok reset the form then `load()`. -/
def createProductTrace (ok : Bool) : List Effect :=
  if ok = false then
    [.request "POST" "/admin/products", .alertBox "Failed to create product"]
  else
    [.request "POST" "/admin/products", .setFormState "AdminPanel",
      .invokeLoad "AdminPanel"]

/-- Handler `AdminPanel.deleteProduct` (variant 2, App.jsx lines 392-395). -/
def deleteProductTrace (id : String) : List Effect :=
  [.request "DELETE" ("/admin/products/" ++ id), .invokeLoad "AdminPanel"]

/-- Handler `AdminPanel.updateOrderStatus` (variant 2, App.jsx lines 397-400). -/
def updateOrderStatusTrace (id _status : String) : List Effect :=
  [.request "PATCH" ("/admin/orders/" ++ id), .invokeLoad "AdminPanel"]

def isLoad : Effect → Bool
  | .invokeLoad _ => true
  | _ => false

def isListPatch : Effect → Bool
  | .setListState _ => true
  | _ => false

/-- The trace issues its request and afterwards re-invokes a load routine. -/
def requestThenLoad : List Effect → Bool
  | [] => false
  | .request _ _ :: rest => rest.any isLoad
  | _ :: rest => requestThenLoad rest

def issuesRequest (t : List Effect) : Bool :=
  t.any fun e => match e with
    | .request _ _ => true
    | _ => false

/-! ## List views and their empty states

Each list rendering is transcribed as the list of nodes it produces, in
source order, from the fetched row labels: one `item` per row plus the
view's empty-state clause where the source has one. -/

inductive Node
  | item (label : String)
  | text (s : String)
deriving DecidableEq, Repr

/-- The `Shop` grid (variant 2, App.jsx lines 195-218): product cards, then
the empty clause guarded by `products.length===0 && !loading`. -/
def shopGrid (products : List String) (loading : Bool) : List Node :=
  products.map .item ++
    (if products.length = 0 ∧ loading = false
      then [.text "No products found."] else [])

/-- The `Cart` line list (variant 2, App.jsx lines 257-277). -/
def cartLineList (items : List String) : List Node :=
  items.map .item ++
    (if items.length = 0 then [.text "Your cart is empty."] else [])

/-- The `Services` list (variant 2, App.jsx lines 312-323). -/
def servicesList (services : List String) : List Node :=
  services.map .item ++
    (if services.length = 0 then [.text "No service bookings yet."] else [])

/-- Admin products list (variant 2, App.jsx lines 418-429). -/
def adminProductsList (products : List String) : List Node :=
  products.map .item ++
    (if products.length = 0 then [.text "No products yet."] else [])

/-- Admin orders list (variant 2, App.jsx lines 448-464). -/
def adminOrdersList (orders : List String) : List Node :=
  orders.map .item ++
    (if orders.length = 0 then [.text "No orders yet."] else [])

/-- Admin customers list (variant 2, App.jsx lines 468-479). -/
def adminCustomersList (users : List String) : List Node :=
  users.map .item ++
    (if users.length = 0 then [.text "No customers yet."] else [])

/-- Admin services list (variant 2, App.jsx lines 483-494). -/
def adminServicesList (svcs : List String) : List Node :=
  svcs.map .item ++
    (if svcs.length = 0 then [.text "No service requests."] else [])

/-- Live-cameras grid (variant 1, part_000 lines 174-195): the empty
clause precedes the mapped cards in the source. -/
def liveCamerasGrid (cams : List String) : List Node :=
  (if cams.length = 0
    then [.text "No cameras yet. Add one to view live feeds."] else []) ++
  cams.map .item

/-- The `Recordings` grid (variant 1, part_000 lines 286-299). -/
def recordingsGrid (items : List String) : List Node :=
  (if items.length = 0 then [.text "No recordings found."] else []) ++
  items.map .item

/-- Alerts list (variant 1, part_000 lines 203-216). -/
def alertsList (alerts : List String) : List Node :=
  alerts.map .item ++
    (if alerts.length = 0 then [.text "No alerts yet."] else [])

/-- Dashboard services tab (variant 1, part_000 lines 222-232): the
source maps the rows with no empty-state clause. -/
def dashServicesList (services : List String) : List Node :=
  services.map .item

/-- Variant-1 admin users tab (part_000 lines 347-357): no empty clause. -/
def adminUsersList1 (users : List String) : List Node :=
  users.map .item

/-- Variant-1 admin cameras tab (part_000 lines 361-371): no empty clause. -/
def adminCamerasList1 (cams : List String) : List Node :=
  cams.map .item

/-- Variant-1 admin services tab (part_000 lines 375-385): no empty clause. -/
def adminServicesList1 (svcs : List String) : List Node :=
  svcs.map .item

/-! ## Admin panel role gating (both variants)

Both `AdminPanel`s compare `user?.role` against the admin role, return an
informational placeholder when it is false, and guard `load` with
`if (!isAdmin) return`. The full (admin) rendering is transcribed per
tab, with one `control` node per mutation button. -/

inductive AdminNode
  | placeholderInfo (msg : String)
  | control (label : String)
  | listItem (label : String)
  | formField (label : String)
deriving DecidableEq, Repr

/-- The gate `user?.role === "admin"`: a missing user is not an admin. -/
def isAdminUser (user : Option User) : Bool :=
  match user with
  | some u => u.role == "admin"
  | none => false

def orderStatuses : List String :=
  ["paid", "processing", "shipped", "completed", "cancelled"]

/-- Variant-2 `AdminPanel` rendering (App.jsx lines 402-497): placeholder
for non-admins; otherwise the selected tab's rows and mutation controls
(delete per product plus the create form, one status button per order per
status). -/
def adminPanelView2 (user : Option User) (tab : String)
    (users products orders svcs : List String) : List AdminNode :=
  if isAdminUser user = false then
    [.placeholderInfo "Admin dashboard is available for admin accounts."]
  else if tab = "products" then
    (products.map fun p => .listItem p) ++
    (products.map fun p => .control ("Delete " ++ p)) ++
    (if products.length = 0 then [.placeholderInfo "No products yet."] else []) ++
    [.formField "Name", .formField "Description", .formField "Category",
      .formField "Price", .formField "Stock", .formField "Images",
      .control "Create"]
  else if tab = "orders" then
    (orders.map fun o => .listItem o) ++
    ((orders.map fun o => orderStatuses.map
        fun s => AdminNode.control ("Set " ++ o ++ " " ++ s)).flatten) ++
    (if orders.length = 0 then [.placeholderInfo "No orders yet."] else [])
  else if tab = "customers" then
    (users.map fun u => .listItem u) ++
    (if users.length = 0 then [.placeholderInfo "No customers yet."] else [])
  else if tab = "services" then
    (svcs.map fun s => .listItem s) ++
    (if svcs.length = 0 then [.placeholderInfo "No service requests."] else [])
  else []

/-- Variant-2 `AdminPanel.load` (App.jsx lines 369-381): four parallel
GETs, guarded by `if (!isAdmin) return`. -/
def adminLoad2 (user : Option User) : List String :=
  if isAdminUser user = false then []
  else ["GET /admin/users", "GET /products", "GET /admin/orders",
    "GET /admin/services"]

/-- Variant-1 `AdminPanel` rendering (part_000 lines 332-396): placeholder
for non-admins; otherwise the selected tab's rows, the alerts tab being a
form with the `Send Alert` control. -/
def adminPanelView1 (user : Option User) (tab : String)
    (users cams svcs : List String) : List AdminNode :=
  if isAdminUser user = false then
    [.placeholderInfo "Admin panel available for admin accounts."]
  else if tab = "users" then users.map .listItem
  else if tab = "cameras" then cams.map .listItem
  else if tab = "services" then svcs.map .listItem
  else if tab = "alerts" then
    [.formField "Title", .formField "Message", .control "Send Alert"]
  else []

/-- Variant-1 `AdminPanel.load` (part_000 lines 312-322): three parallel
GETs, guarded by `if (!isAdmin) return`. -/
def adminLoad1 (user : Option User) : List String :=
  if isAdminUser user = false then []
  else ["GET /admin/users", "GET /admin/cameras", "GET /admin/services"]

def isControl : AdminNode → Bool
  | .control _ => true
  | _ => false

/-! ## Helper lemmas -/

lemma foldl_price_eq_sum (l : List CartItem) (s : ℚ) :
    l.foldl (fun a i => a + i.price * (i.qty : ℚ)) s =
      s + (l.map fun i => i.price * (i.qty : ℚ)).sum := by
  induction l generalizing s with
  | nil => simp
  | cons i rest ih => simp [List.foldl_cons, ih, add_assoc]

lemma addToCart_qty_ge_one (p : Product) (items : List CartItem)
    (h : ∀ i ∈ items, 1 ≤ i.qty) : ∀ i ∈ addToCart items p, 1 ≤ i.qty := by
  induction items with
  | nil =>
    intro i hi
    simp [addToCart] at hi
    simp [hi]
  | cons it rest ih =>
    intro i hi
    by_cases hid : it.product_id = p.id
    · simp [addToCart, hid] at hi
      rcases hi with hi | hi
      · have := h it (by simp)
        simp [hi]
        omega
      · exact h i (by simp [hi])
    · simp [addToCart, hid] at hi
      rcases hi with hi | hi
      · exact h i (by simp [hi])
      · exact ih (fun j hj => h j (by simp [hj])) i hi

/-- The concrete cart from the specification example:
`[{price 10, qty 2}, {price 5, qty 1}]`. -/
def exampleCart : List CartItem :=
  [⟨"p1", "Dome Camera", 10, 2, none⟩, ⟨"p2", "BNC Cable", 5, 1, none⟩]

/-- C1: the Cart view computes the subtotal as the sum of price times
quantity over the lines, the tax as the subtotal times 0.07 rounded to
two decimal places, and the total as the subtotal plus tax rounded to two
decimal places; on the example cart [{price 10, qty 2}, {price 5, qty 1}]
this yields subtotal 25.00, tax 1.75 and total 26.75. -/
theorem cart_arithmetic_spec (items : List CartItem) :
    cartSubtotal items = (items.map fun i => i.price * (i.qty : ℚ)).sum
    ∧ cartTax items = round2 (cartSubtotal items * (7/100))
    ∧ cartTotal items = round2 (cartSubtotal items + cartTax items)
    ∧ cartSubtotal exampleCart = 25
    ∧ cartTax exampleCart = 175/100
    ∧ cartTotal exampleCart = 2675/100 := by
  refine ⟨?_, rfl, rfl, ?_, ?_, ?_⟩
  · simpa using foldl_price_eq_sum items 0
  · norm_num [exampleCart, cartSubtotal]
  · norm_num [exampleCart, cartTax, cartSubtotal, round2]
  · norm_num [exampleCart, cartTotal, cartTax, cartSubtotal, round2]

/-- C10: invoking `placeOrder` on an empty cart issues no requests and
leaves the persisted cart and the in-memory items unchanged, with no
message shown. -/
theorem place_order_empty_cart_noop (sc : Option (List CartItem))
    (orderOk payOk : Bool) :
    placeOrder [] sc orderOk payOk = ⟨[], sc, [], none⟩ := rfl

/-- C8: `logout` removes the token and user keys from storage and resets
the in-memory session, with no request; rendering the root component on
the cleared state, directly or after re-initialization from the cleared
storage, shows the unauthenticated screen. -/
theorem logout_clears_session (st : Storage) (mem : AuthState) :
    (logout st mem).1 = ⟨none, none⟩
    ∧ (logout st mem).2 = ⟨"", none⟩
    ∧ appScreen (logout st mem).2 = .authScreen
    ∧ appScreen (initAuth (logout st mem).1) = .authScreen :=
  ⟨rfl, rfl, rfl, rfl⟩

/-- C5 counterexample: with an empty fetched array, the variant-1
dashboard services tab and the variant-1 admin users/cameras/services
tabs render no nodes at all — no placeholder text — contradicting the
claim that every list view renders a designated placeholder when empty. -/
theorem variant1_empty_lists_render_nothing :
    dashServicesList [] = [] ∧ adminUsersList1 [] = []
    ∧ adminCamerasList1 [] = [] ∧ adminServicesList1 [] = [] :=
  ⟨rfl, rfl, rfl, rfl⟩

/-- C5 amended: every list view other than the variant-1 dashboard
services tab and the variant-1 admin users/cameras/services tabs renders
its designated placeholder text when the fetched array is empty and
loading has finished. -/
theorem empty_lists_render_placeholders :
    shopGrid [] false = [.text "No products found."]
    ∧ cartLineList [] = [.text "Your cart is empty."]
    ∧ servicesList [] = [.text "No service bookings yet."]
    ∧ adminProductsList [] = [.text "No products yet."]
    ∧ adminOrdersList [] = [.text "No orders yet."]
    ∧ adminCustomersList [] = [.text "No customers yet."]
    ∧ adminServicesList [] = [.text "No service requests."]
    ∧ liveCamerasGrid [] = [.text "No cameras yet. Add one to view live feeds."]
    ∧ recordingsGrid [] = [.text "No recordings found."]
    ∧ alertsList [] = [.text "No alerts yet."] := by
  refine ⟨?_, ?_, ?_, ?_, ?_, ?_, ?_, ?_, ?_, ?_⟩ <;> rfl

/-- C2: on a non-empty cart, checkout issues the order request first; a
non-ok order response aborts with no payment request and the persisted
and in-memory cart unchanged; a non-ok payment response after a
successful order also leaves the cart unchanged; the cart is cleared
(persisted key removed, in-memory list emptied) exactly when both
requests succeed. -/
theorem checkout_two_phase (items : List CartItem) (sc : Option (List CartItem))
    (orderOk payOk : Bool) (h : items ≠ []) :
    (placeOrder items sc orderOk payOk).requests.head? = some "POST /orders"
    ∧ (orderOk = false →
        placeOrder items sc orderOk payOk =
          ⟨["POST /orders"], sc, items, some "Order failed"⟩)
    ∧ (orderOk = true → payOk = false →
        placeOrder items sc orderOk payOk =
          ⟨["POST /orders", "POST /payments/checkout"], sc, items,
            some "Payment failed"⟩)
    ∧ (((placeOrder items sc orderOk payOk).storedCart = none
        ∧ (placeOrder items sc orderOk payOk).items = [])
        ↔ (orderOk = true ∧ payOk = true)) := by
  have hl : ¬ items.length = 0 := by simpa using h
  cases orderOk <;> cases payOk <;> simp [placeOrder, hl, h]

theorem checkout_two_phase_witness :
    placeOrder [⟨"p1", "Dome Camera", 10, 2, none⟩]
        (some [⟨"p1", "Dome Camera", 10, 2, none⟩]) true false =
      ⟨["POST /orders", "POST /payments/checkout"],
        some [⟨"p1", "Dome Camera", 10, 2, none⟩],
        [⟨"p1", "Dome Camera", 10, 2, none⟩], some "Payment failed"⟩ :=
  (checkout_two_phase _ _ true false (by simp)).2.2.1 rfl rfl

/-- C3: starting from a cart whose lines all have quantity at least 1,
`updateQty` with delta +1 or -1 keeps every quantity at least 1 and never
changes the number of lines; decrementing a line whose quantity is 1
leaves that line exactly as it was (clamped at 1, not removed);
`removeItem` and `addToCart` also preserve the quantity floor. -/
theorem cart_qty_floor (items : List CartItem) (pid : String) (delta : ℤ)
    (p : Product) (_hdelta : delta = 1 ∨ delta = -1)
    (hinv : ∀ i ∈ items, 1 ≤ i.qty) :
    (∀ i ∈ updateQty items pid delta, 1 ≤ i.qty)
    ∧ (updateQty items pid delta).length = items.length
    ∧ (∀ i ∈ items, i.product_id = pid → i.qty = 1 →
        updateQtyItem pid (-1) i = i)
    ∧ (∀ i ∈ removeItem items pid, 1 ≤ i.qty)
    ∧ (∀ i ∈ addToCart items p, 1 ≤ i.qty) := by
  refine ⟨?_, ?_, ?_, ?_, ?_⟩
  · intro i hi
    rw [updateQty, List.mem_map] at hi
    obtain ⟨j, hj, rfl⟩ := hi
    rw [updateQtyItem]
    split
    · simp [le_max_left]
    · exact hinv j hj
  · exact List.length_map _ _
  · intro i _hi hid h1
    rw [updateQtyItem, if_pos hid]
    cases i
    simp_all
  · intro i hi
    rw [removeItem, List.mem_filter] at hi
    exact hinv i hi.1
  · exact addToCart_qty_ge_one p items hinv

theorem cart_qty_floor_witness :
    (updateQty [⟨"p1", "Dome Camera", 10, 1, none⟩] "p1" (-1)).length = 1 := by
  have h := cart_qty_floor [⟨"p1", "Dome Camera", 10, 1, none⟩] "p1" (-1)
    ⟨"p2", "BNC Cable", 5, none⟩ (Or.inr rfl) (by simp)
  simpa using h.2.1

/-- C4 counterexample: two of the spec-named mutating actions issue their
request without re-invoking any load routine afterwards: `sendAlert`
(variant-1 admin panel) always, and `createProduct` (variant-2 admin
panel) on a non-ok response, so not every mutating action named by the
spec refreshes its owning panel. -/
theorem send_alert_and_failed_create_never_reload :
    issuesRequest sendAlertTrace = true
    ∧ requestThenLoad sendAlertTrace = false
    ∧ issuesRequest (createProductTrace false) = true
    ∧ requestThenLoad (createProductTrace false) = false :=
  ⟨rfl, rfl, rfl, rfl⟩

/-- C4 amended: every mutating action named by the spec other than
`sendAlert` and `createProduct` (create camera, book service, change
plan, delete product, update order status) performs its request and then
re-invokes the owning panel's load routine; `createProduct` re-invokes it
exactly when the response is ok; `sendAlert` performs its POST but
re-invokes no load routine; no action, the two exceptions included,
patches fetched list state directly. -/
theorem mutations_reload_amended (address plan id status : String)
    (h : address ≠ "") :
    requestThenLoad addCameraTrace = true
    ∧ requestThenLoad (createServiceTrace address) = true
    ∧ requestThenLoad (bookServiceTrace address) = true
    ∧ requestThenLoad (changePlanTrace plan) = true
    ∧ (∀ ok : Bool, requestThenLoad (createProductTrace ok) = ok)
    ∧ requestThenLoad (deleteProductTrace id) = true
    ∧ requestThenLoad (updateOrderStatusTrace id status) = true
    ∧ requestThenLoad sendAlertTrace = false
    ∧ (addCameraTrace ++ createServiceTrace address ++ bookServiceTrace address
        ++ changePlanTrace plan ++ sendAlertTrace ++ createProductTrace true
        ++ createProductTrace false ++ deleteProductTrace id
        ++ updateOrderStatusTrace id status).any isListPatch = false := by
  rw [createServiceTrace, bookServiceTrace, if_neg h, if_neg h]
  refine ⟨rfl, rfl, rfl, rfl, ?_, rfl, rfl, rfl, ?_⟩
  · intro ok
    cases ok <;> rfl
  · simp [addCameraTrace, changePlanTrace, sendAlertTrace, createProductTrace,
      deleteProductTrace, updateOrderStatusTrace, isListPatch]

theorem mutations_reload_amended_witness :
    requestThenLoad (createServiceTrace "12 Elm St") = true :=
  (mutations_reload_amended "12 Elm St" "pro" "o1" "paid" (by simp)).2.1

/-- C6: `login` always issues the POST request; it fails with the
`Invalid credentials` error exactly when the response is non-ok, in which
case neither persisted storage nor the in-memory session changes; on an
ok response the returned token and serialized user are written to storage
and the in-memory session is set to the same values. -/
theorem login_spec (st : Storage) (mem : AuthState) (resp : LoginResp) :
    (login st mem resp).requests = ["POST /auth/login"]
    ∧ ((login st mem resp).error = some "Invalid credentials"
        ↔ resp.ok = false)
    ∧ (resp.ok = false →
        (login st mem resp).storage = st ∧ (login st mem resp).state = mem)
    ∧ (resp.ok = true →
        (login st mem resp).storage =
          ⟨some resp.token, some (stringifyUser resp.user)⟩
        ∧ (login st mem resp).state = ⟨resp.token, some resp.user⟩) := by
  cases hok : resp.ok <;> simp [login, hok]

/-- C9: with a session whose user role is not admin (or no user at all),
both variants of the admin panel render only the informational
placeholder — no mutation control — and their load routines issue no
admin fetches, whatever data is cached in component state. -/
theorem admin_panel_role_gating (user : Option User) (tab : String)
    (users products orders svcs cams : List String)
    (h : isAdminUser user = false) :
    adminPanelView2 user tab users products orders svcs =
      [.placeholderInfo "Admin dashboard is available for admin accounts."]
    ∧ adminLoad2 user = []
    ∧ adminPanelView1 user tab users cams svcs =
      [.placeholderInfo "Admin panel available for admin accounts."]
    ∧ adminLoad1 user = []
    ∧ (adminPanelView2 user tab users products orders svcs).any isControl
        = false
    ∧ (adminPanelView1 user tab users cams svcs).any isControl = false := by
  simp [adminPanelView2, adminPanelView1, adminLoad2, adminLoad1, h,
    isControl]

theorem admin_panel_role_gating_witness :
    adminLoad2 (some ⟨"u2", "Bob", "bob@example.com", "user"⟩) = [] :=
  (admin_panel_role_gating (some ⟨"u2", "Bob", "bob@example.com", "user"⟩)
    "products" ["Ada"] ["Dome Camera"] ["o1"] ["installation"] ["Front Door"]
    (by decide)).2.1

/-! ## Serialization round-trip lemmas -/

lemma escapeL_cons (c : Char) (cs : List Char) :
    escapeL (c :: cs) = escapeChar c ++ escapeL cs := by
  simp [escapeL]

lemma readStr_escapeL (s rest : List Char) :
    readStr (escapeL s ++ '"' :: rest) = some (s, rest) := by
  unfold readStr
  induction s with
  | nil => rfl
  | cons c cs ih =>
    rw [escapeL_cons, escapeChar]
    by_cases hc : c = '"' ∨ c = '\\'
    · rw [if_pos hc]
      show (readStrAux false (escapeL cs ++ '"' :: rest)).map
        (fun p => (c :: p.1, p.2)) = some (c :: cs, rest)
      rw [ih]
      rfl
    · rw [if_neg hc]
      push_neg at hc
      show readStrAux false (c :: (escapeL cs ++ '"' :: rest))
        = some (c :: cs, rest)
      simp only [readStrAux]
      rw [if_neg hc.2, if_neg hc.1, ih]
      rfl

lemma dropLit_append (lit cs : List Char) :
    dropLit lit (lit ++ cs) = some cs := by
  induction lit with
  | nil => rfl
  | cons l ls ih => simp [dropLit, ih]

lemma parseUserL_stringifyUserL (u : User) :
    parseUserL (stringifyUserL u) = some u := by
  simp only [parseUserL, stringifyUserL, List.append_assoc, dropLit_append,
    readStr_escapeL, Option.bind_eq_bind, Option.some_bind]
  rw [show dropLit closeBrace closeBrace = some [] from by
    simpa using dropLit_append closeBrace []]
  rfl

lemma parseUser_stringifyUser (u : User) :
    parseUser (stringifyUser u) = some u :=
  parseUserL_stringifyUserL u

lemma parseUser_empty : parseUser "" = none := rfl

lemma stringifyUser_ne_empty (u : User) : stringifyUser u ≠ "" := by
  intro h
  have h2 := parseUser_stringifyUser u
  rw [h, parseUser_empty] at h2
  exact Option.noConfusion h2

/-- C7: for any session stored by a successful login, re-initializing the
auth client from persisted storage alone reconstructs exactly the same
token string and the same user object as the in-memory session the login
produced: writing then reading the session through storage, including the
JSON serialization of the user, is a round-trip. -/
theorem session_round_trip (st : Storage) (mem : AuthState) (resp : LoginResp)
    (h : resp.ok = true) :
    initAuth (login st mem resp).storage = ⟨resp.token, some resp.user⟩
    ∧ initAuth (login st mem resp).storage = (login st mem resp).state := by
  have hlogin : login st mem resp =
      ⟨["POST /auth/login"],
        ⟨some resp.token, some (stringifyUser resp.user)⟩,
        ⟨resp.token, some resp.user⟩, none⟩ := by
    simp [login, h]
  rw [hlogin]
  constructor
  · simp [initAuth, stringifyUser_ne_empty, parseUser_stringifyUser]
  · simp [initAuth, stringifyUser_ne_empty, parseUser_stringifyUser]

theorem session_round_trip_witness :
    initAuth (login ⟨none, none⟩ ⟨"", none⟩
        ⟨true, "tok-1", ⟨"u1", "Ada", "ada@example.com", "admin"⟩⟩).storage
      = ⟨"tok-1", some ⟨"u1", "Ada", "ada@example.com", "admin"⟩⟩ :=
  (session_round_trip ⟨none, none⟩ ⟨"", none⟩
    ⟨true, "tok-1", ⟨"u1", "Ada", "ada@example.com", "admin"⟩⟩ rfl).1
